import Mathlib

set_option maxRecDepth 10000
set_option maxHeartbeats 1000000

/-!
Verification development for the dual-grid autotiling engine and the
procedural map generator of the mining-game repository.

The definitions below are shallow embeddings of the JavaScript sources:
* `src/js/tileRenderer.js` (pattern catalog: `generateAllPatterns`,
  `PATTERN_LOOKUP`, `getPatternIndex`, `getPatternByIndex`),
* `src/js/dualGridSystem.js` (`getTerrainAt`, `setTerrainAt`, `digAt`,
  `getVisualTilePattern`, `getTileIndex`, `getAffectedVisualTiles`),
* the refactored `MapGenerator` (`generateMap` and its strategy methods,
  `getPlayerStartPosition`, `isInHomeBase`).

Modelling conventions:
* JavaScript numbers used as terrain states are the ordinals of the
  `TerrainType` enumeration (`EMPTY = 0`, `DIGGABLE = 1`, `UNDIGGABLE = 2`).
* The string keys of the `PATTERN_LOOKUP` map have the form "a,b,c,d" with
  each component a single digit 0..2, so the string key is injective on the
  4-tuples involved; the map is embedded keyed by the 4-tuple itself.
* `Math.random()` is modelled as a stream of rational draws indexed by a
  call counter; the universal theorems quantify over every stream whose
  values lie in [0,1), which covers every sequence of values the real
  generator can produce.
* `Math.sqrt(d) < r` for nonnegative `d` and positive `r` is embedded as
  `d < r ^ 2`, an exact equivalence of the real-number comparison.
-/

namespace MiningGame

/-- `TerrainType` from tileRenderer.js: EMPTY = 0, DIGGABLE = 1, UNDIGGABLE = 2. -/
inductive TerrainType where
  | EMPTY
  | DIGGABLE
  | UNDIGGABLE
deriving DecidableEq, Repr, Fintype

/-- The numeric ordinal of a terrain type, as used in lookup keys. -/
def TerrainType.val : TerrainType → Nat
  | .EMPTY => 0
  | .DIGGABLE => 1
  | .UNDIGGABLE => 2

def TILEMAP_COLUMNS : Nat := 10

def TILEMAP_ROWS : Nat := 8

def TOTAL_TILES : Nat := 80

/-- One entry of the TILE_PATTERNS catalog. The unused `patternName` string
field of the source is omitted; `index` is an `Int` so that the synthetic
all-empty entry with index -1 is representable. -/
structure TilePattern where
  tl : Nat
  tr : Nat
  bl : Nat
  br : Nat
  index : Int
  gridX : Nat
  gridY : Nat
deriving DecidableEq, Repr

/-- The 81 corner 4-tuples in the visitation order of the four nested loops
of `generateAllPatterns` (tl outermost, then tr, then bl, then br). -/
def allCornerTuples : List (Nat × Nat × Nat × Nat) :=
  (List.range 3).flatMap fun tl =>
    (List.range 3).flatMap fun tr =>
      (List.range 3).flatMap fun bl =>
        (List.range 3).map fun br => (tl, tr, bl, br)

/-- `generateAllPatterns` of tileRenderer.js: push an entry for every corner
combination except (0,0,0,0), assigning indices from a running counter and
atlas positions `index % 10`, `index / 10`. -/
def TILE_PATTERNS : List TilePattern :=
  (allCornerTuples.foldl
    (fun (st : List TilePattern × Nat) c =>
      if c = (0, 0, 0, 0) then st
      else
        (st.1 ++ [{ tl := c.1, tr := c.2.1, bl := c.2.2.1, br := c.2.2.2,
                    index := (st.2 : Int),
                    gridX := st.2 % TILEMAP_COLUMNS,
                    gridY := st.2 / TILEMAP_COLUMNS }],
         st.2 + 1))
    ([], 0)).1

/-- `initializePatternLookup`: every catalog entry keyed by its corner tuple,
plus the special all-empty key mapped to -1. -/
def PATTERN_LOOKUP : List ((Nat × Nat × Nat × Nat) × Int) :=
  TILE_PATTERNS.map (fun p => ((p.tl, p.tr, p.bl, p.br), p.index)) ++
    [((0, 0, 0, 0), -1)]

/-- `getPatternIndex` of tileRenderer.js. -/
def getPatternIndex (tl tr bl br : Nat) : Int :=
  (PATTERN_LOOKUP.lookup (tl, tr, bl, br)).getD (-1)

/-- The synthetic all-empty entry returned by `getPatternByIndex(-1)`. -/
def EMPTY_PATTERN : TilePattern :=
  { tl := 0, tr := 0, bl := 0, br := 0, index := -1, gridX := 0, gridY := 0 }

/-- `getPatternByIndex` of tileRenderer.js: index -1 yields the synthetic
all-empty entry; an index with no catalog entry falls back to entry 0. -/
def getPatternByIndex (index : Int) : TilePattern :=
  if index = -1 then EMPTY_PATTERN
  else
    match (if 0 ≤ index then TILE_PATTERNS[index.toNat]? else none) with
    | some p => p
    | none => TILE_PATTERNS.headD EMPTY_PATTERN

/-- The `DualGridSystem` state: the base grid is a rectangular `width` by
`height` array of terrain states; cells outside that rectangle are never
observed (every access is bounds guarded), so the carrier is a total
function. `baseGrid y x` is the cell in row `y`, column `x`. -/
structure DualGridSystem where
  width : Nat
  height : Nat
  baseGrid : Nat → Nat → TerrainType

/-- `getTerrainAt` of dualGridSystem.js: out-of-bounds reads report
UNDIGGABLE. -/
def getTerrainAt (g : DualGridSystem) (x y : Int) : TerrainType :=
  if x < 0 ∨ (g.width : Int) ≤ x ∨ y < 0 ∨ (g.height : Int) ≤ y then
    TerrainType.UNDIGGABLE
  else g.baseGrid y.toNat x.toNat

/-- `setTerrainAt` of dualGridSystem.js: out-of-bounds writes are a no-op. -/
def setTerrainAt (g : DualGridSystem) (x y : Int) (t : TerrainType) :
    DualGridSystem :=
  if 0 ≤ x ∧ x < (g.width : Int) ∧ 0 ≤ y ∧ y < (g.height : Int) then
    { g with baseGrid := fun y' x' =>
        if y' = y.toNat ∧ x' = x.toNat then t else g.baseGrid y' x' }
  else g

/-- `digAt` of dualGridSystem.js: succeed only on a DIGGABLE cell. The pair
returned is (return value, grid after the call). -/
def digAt (g : DualGridSystem) (x y : Int) : Bool × DualGridSystem :=
  if getTerrainAt g x y = TerrainType.DIGGABLE then
    (true, setTerrainAt g x y TerrainType.EMPTY)
  else (false, g)

/-- The corner sample of one visual tile. -/
structure CornerPattern where
  tl : TerrainType
  tr : TerrainType
  bl : TerrainType
  br : TerrainType
deriving DecidableEq, Repr

/-- `getVisualTilePattern` of dualGridSystem.js. -/
def getVisualTilePattern (g : DualGridSystem) (visualX visualY : Int) :
    CornerPattern :=
  { tl := getTerrainAt g visualX visualY
    tr := getTerrainAt g (visualX + 1) visualY
    bl := getTerrainAt g visualX (visualY + 1)
    br := getTerrainAt g (visualX + 1) (visualY + 1) }

/-- `getTileIndex` of dualGridSystem.js: look the sampled pattern up; a map
miss falls back to 0. -/
def getTileIndex (g : DualGridSystem) (visualX visualY : Int) : Int :=
  let p := getVisualTilePattern g visualX visualY
  match PATTERN_LOOKUP.lookup (p.tl.val, p.tr.val, p.bl.val, p.br.val) with
  | some i => i
  | none => 0

/-- `getAffectedVisualTiles` of dualGridSystem.js: the four candidate visual
tiles around a mutated base cell, filtered to the visual grid bounds, in
push order. -/
def getAffectedVisualTiles (g : DualGridSystem) (baseX baseY : Int) :
    List (Int × Int) :=
  ([(baseX - 1, baseY - 1), (baseX, baseY - 1),
    (baseX - 1, baseY), (baseX, baseY)]).filter
    (fun pos => decide (0 ≤ pos.1 ∧ pos.1 < (g.width : Int) ∧
                        0 ≤ pos.2 ∧ pos.2 < (g.height : Int)))

/-- Helper for totality of tile resolution: for every 4-tuple of terrain
ordinals the lookup map hits, and the looked-up value is -1 or in 0..79. -/
theorem lookup_total (t1 t2 t3 t4 : TerrainType) :
    (PATTERN_LOOKUP.lookup (t1.val, t2.val, t3.val, t4.val)).isSome = true ∧
    ((match PATTERN_LOOKUP.lookup (t1.val, t2.val, t3.val, t4.val) with
      | some i => i
      | none => (0 : Int)) = -1 ∨
      (0 ≤ (match PATTERN_LOOKUP.lookup (t1.val, t2.val, t3.val, t4.val) with
            | some i => i
            | none => (0 : Int)) ∧
       (match PATTERN_LOOKUP.lookup (t1.val, t2.val, t3.val, t4.val) with
        | some i => i
        | none => (0 : Int)) < 80)) := by
  cases t1 <;> cases t2 <;> cases t3 <;> cases t4 <;> decide

/-- C2: `generateAllPatterns` with 3 terrain states yields exactly 80 catalog
entries; the assigned indices are exactly 0..79 in visitation order; every
ordered 4-tuple over {0,1,2} except (0,0,0,0) occurs exactly once; and the
index of each entry equals its rank in the tl-outermost / br-innermost
nesting order (rank 27*tl + 9*tr + 3*bl + br, minus one for the skipped
all-zero tuple). -/
theorem tile_patterns_catalog_complete :
    TILE_PATTERNS.length = 80 ∧
    TILE_PATTERNS.map (fun p => p.index) =
      (List.range 80).map (fun i => (i : Int)) ∧
    (∀ a b c d : Fin 3, ¬(a.val = 0 ∧ b.val = 0 ∧ c.val = 0 ∧ d.val = 0) →
      TILE_PATTERNS.countP
        (fun p => p.tl == a.val && p.tr == b.val &&
                  p.bl == c.val && p.br == d.val) = 1) ∧
    (∀ p ∈ TILE_PATTERNS,
      p.index = ((27 * p.tl + 9 * p.tr + 3 * p.bl + p.br : Nat) : Int) - 1) := by
  refine ⟨by decide, by decide, by decide, by decide⟩

/-- Witness for C2 at the concrete corner tuple (0,0,0,1). -/
theorem tile_patterns_catalog_complete_witness :
    TILE_PATTERNS.countP
      (fun p => p.tl == 0 && p.tr == 0 && p.bl == 0 && p.br == 1) = 1 :=
  tile_patterns_catalog_complete.2.2.1 0 0 0 1 (by decide)

/-- C3: the lookups form a bijection on the 80 non-sentinel patterns.
`getPatternByIndex (getPatternIndex tl tr bl br)` restores the four corner
values for every non-all-zero tuple over {0,1,2}; `getPatternIndex` applied
to the corners of `getPatternByIndex i` gives back every `i` in 0..79; and
the all-zero tuple maps to the sentinel -1. -/
theorem pattern_lookup_bijection :
    (∀ a b c d : Fin 3, ¬(a.val = 0 ∧ b.val = 0 ∧ c.val = 0 ∧ d.val = 0) →
      (getPatternByIndex (getPatternIndex a.val b.val c.val d.val)).tl = a.val ∧
      (getPatternByIndex (getPatternIndex a.val b.val c.val d.val)).tr = b.val ∧
      (getPatternByIndex (getPatternIndex a.val b.val c.val d.val)).bl = c.val ∧
      (getPatternByIndex (getPatternIndex a.val b.val c.val d.val)).br = d.val) ∧
    (∀ i : Fin 80,
      getPatternIndex (getPatternByIndex i.val).tl (getPatternByIndex i.val).tr
        (getPatternByIndex i.val).bl (getPatternByIndex i.val).br =
        (i.val : Int)) ∧
    getPatternIndex 0 0 0 0 = -1 := by
  refine ⟨by decide, by decide, by decide⟩

/-- Witness for C3 at the concrete corner tuple (1,0,0,0) and index 0. -/
theorem pattern_lookup_bijection_witness :
    (getPatternByIndex (getPatternIndex 1 0 0 0)).tl = 1 ∧
    getPatternIndex (getPatternByIndex 0).tl (getPatternByIndex 0).tr
      (getPatternByIndex 0).bl (getPatternByIndex 0).br = 0 :=
  ⟨(pattern_lookup_bijection.1 1 0 0 0 (by decide)).1,
   pattern_lookup_bijection.2.1 0⟩

/-- C9: tile resolution is total. For every grid state and every visual
coordinate, in or out of bounds, the sampled key is present in the lookup
map (so the fallback-to-0 branch of `getTileIndex` is unreachable), and the
result of `getTileIndex` is either the sentinel -1 or an index in 0..79. -/
theorem getTileIndex_total (g : DualGridSystem) (visualX visualY : Int) :
    (PATTERN_LOOKUP.lookup
      ((getVisualTilePattern g visualX visualY).tl.val,
       (getVisualTilePattern g visualX visualY).tr.val,
       (getVisualTilePattern g visualX visualY).bl.val,
       (getVisualTilePattern g visualX visualY).br.val)).isSome = true ∧
    (getTileIndex g visualX visualY = -1 ∨
      (0 ≤ getTileIndex g visualX visualY ∧
       getTileIndex g visualX visualY < 80)) :=
  lookup_total (getVisualTilePattern g visualX visualY).tl
    (getVisualTilePattern g visualX visualY).tr
    (getVisualTilePattern g visualX visualY).bl
    (getVisualTilePattern g visualX visualY).br

theorem getTerrainAt_oob (g : DualGridSystem) (x y : Int)
    (h : x < 0 ∨ (g.width : Int) ≤ x ∨ y < 0 ∨ (g.height : Int) ≤ y) :
    getTerrainAt g x y = TerrainType.UNDIGGABLE := by
  unfold getTerrainAt
  rw [if_pos h]

theorem setTerrainAt_oob (g : DualGridSystem) (x y : Int) (t : TerrainType)
    (h : x < 0 ∨ (g.width : Int) ≤ x ∨ y < 0 ∨ (g.height : Int) ≤ y) :
    setTerrainAt g x y t = g := by
  unfold setTerrainAt
  rw [if_neg (by omega)]

theorem getTerrainAt_setTerrainAt_ne (g : DualGridSystem) (x y x' y' : Int)
    (t : TerrainType) (h : ¬(x' = x ∧ y' = y)) :
    getTerrainAt (setTerrainAt g x y t) x' y' = getTerrainAt g x' y' := by
  unfold setTerrainAt
  by_cases hb : 0 ≤ x ∧ x < (g.width : Int) ∧ 0 ≤ y ∧ y < (g.height : Int)
  · rw [if_pos hb]
    unfold getTerrainAt
    by_cases hb' : x' < 0 ∨ (g.width : Int) ≤ x' ∨ y' < 0 ∨ (g.height : Int) ≤ y'
    · rw [if_pos hb', if_pos hb']
    · rw [if_neg hb', if_neg hb']
      have hne : ¬(y'.toNat = y.toNat ∧ x'.toNat = x.toNat) := by omega
      simp only [hne, if_false]
  · rw [if_neg hb]

theorem getTerrainAt_setTerrainAt_self (g : DualGridSystem) (x y : Int)
    (t : TerrainType)
    (hb : 0 ≤ x ∧ x < (g.width : Int) ∧ 0 ≤ y ∧ y < (g.height : Int)) :
    getTerrainAt (setTerrainAt g x y t) x y = t := by
  unfold setTerrainAt
  rw [if_pos hb]
  unfold getTerrainAt
  have hc : ¬(x < 0 ∨ (g.width : Int) ≤ x ∨ y < 0 ∨ (g.height : Int) ≤ y) := by
    omega
  rw [if_neg hc]
  simp

/-- A DIGGABLE read implies the coordinate is in bounds, since out-of-bounds
reads report UNDIGGABLE. -/
theorem diggable_in_bounds (g : DualGridSystem) (x y : Int)
    (h : getTerrainAt g x y = TerrainType.DIGGABLE) :
    0 ≤ x ∧ x < (g.width : Int) ∧ 0 ≤ y ∧ y < (g.height : Int) := by
  by_contra hc
  rw [getTerrainAt_oob g x y (by omega)] at h
  exact absurd h (by decide)

/-- C6: for every out-of-bounds coordinate, `getTerrainAt` returns
UNDIGGABLE and `setTerrainAt` returns the grid unchanged. -/
theorem terrain_out_of_bounds_policy (g : DualGridSystem) (x y : Int)
    (t : TerrainType)
    (h : x < 0 ∨ (g.width : Int) ≤ x ∨ y < 0 ∨ (g.height : Int) ≤ y) :
    getTerrainAt g x y = TerrainType.UNDIGGABLE ∧ setTerrainAt g x y t = g :=
  ⟨getTerrainAt_oob g x y h, setTerrainAt_oob g x y t h⟩

/-- A concrete 3 by 3 grid of DIGGABLE cells used by the witnesses. -/
def sampleGrid3 : DualGridSystem :=
  { width := 3, height := 3, baseGrid := fun _ _ => TerrainType.DIGGABLE }

/-- Witness for C6 at the concrete out-of-bounds coordinate (-1, 0). -/
theorem terrain_out_of_bounds_policy_witness :
    getTerrainAt sampleGrid3 (-1) 0 = TerrainType.UNDIGGABLE ∧
    setTerrainAt sampleGrid3 (-1) 0 TerrainType.EMPTY = sampleGrid3 :=
  terrain_out_of_bounds_policy sampleGrid3 (-1) 0 TerrainType.EMPTY
    (Or.inl (by decide))

/-- C10: digging at any out-of-bounds coordinate fails and leaves the grid
untouched, because the out-of-bounds read reports UNDIGGABLE. -/
theorem digAt_out_of_bounds (g : DualGridSystem) (x y : Int)
    (h : x < 0 ∨ (g.width : Int) ≤ x ∨ y < 0 ∨ (g.height : Int) ≤ y) :
    digAt g x y = (false, g) := by
  unfold digAt
  rw [if_neg (by rw [getTerrainAt_oob g x y h]; decide)]

/-- Witness for C10 at the concrete out-of-bounds coordinate (-1, 0). -/
theorem digAt_out_of_bounds_witness :
    digAt sampleGrid3 (-1) 0 = (false, sampleGrid3) :=
  digAt_out_of_bounds sampleGrid3 (-1) 0 (Or.inl (by decide))

/-- C4: `digAt` succeeds exactly on DIGGABLE cells. On success it returns
true, sets the cell to EMPTY, changes no other cell, and a second dig at the
same cell fails without further mutation; on a non-DIGGABLE cell it returns
false with the grid unchanged. -/
theorem digAt_correct (g : DualGridSystem) (x y : Int) :
    ((digAt g x y).1 = true ↔ getTerrainAt g x y = TerrainType.DIGGABLE) ∧
    (getTerrainAt g x y = TerrainType.DIGGABLE →
      getTerrainAt (digAt g x y).2 x y = TerrainType.EMPTY ∧
      (∀ x' y' : Int, ¬(x' = x ∧ y' = y) →
        getTerrainAt (digAt g x y).2 x' y' = getTerrainAt g x' y') ∧
      digAt (digAt g x y).2 x y = (false, (digAt g x y).2)) ∧
    (getTerrainAt g x y ≠ TerrainType.DIGGABLE → digAt g x y = (false, g)) := by
  by_cases hd : getTerrainAt g x y = TerrainType.DIGGABLE
  · have hdig : digAt g x y = (true, setTerrainAt g x y TerrainType.EMPTY) := by
      unfold digAt
      rw [if_pos hd]
    have hb := diggable_in_bounds g x y hd
    have hempty : getTerrainAt (digAt g x y).2 x y = TerrainType.EMPTY := by
      rw [hdig]
      exact getTerrainAt_setTerrainAt_self g x y TerrainType.EMPTY hb
    refine ⟨by rw [hdig]; simp [hd], fun _ => ⟨hempty, ?_, ?_⟩, fun hc => absurd hd hc⟩
    · intro x' y' hne
      rw [hdig]
      exact getTerrainAt_setTerrainAt_ne g x y x' y' TerrainType.EMPTY hne
    · generalize (digAt g x y).2 = g2 at hempty
      unfold digAt
      rw [if_neg (by rw [hempty]; decide)]
  · have hdig : digAt g x y = (false, g) := by
      unfold digAt
      rw [if_neg hd]
    refine ⟨by rw [hdig]; simp [hd], fun hc => absurd hc hd, fun _ => hdig⟩

/-- Witness for C4: digging the DIGGABLE cell (1,1) of the sample grid
returns true and leaves the cell EMPTY, and a second dig there fails. -/
theorem digAt_correct_witness :
    getTerrainAt sampleGrid3 1 1 = TerrainType.DIGGABLE ∧
    getTerrainAt (digAt sampleGrid3 1 1).2 1 1 = TerrainType.EMPTY ∧
    digAt (digAt sampleGrid3 1 1).2 1 1 = (false, (digAt sampleGrid3 1 1).2) :=
  ⟨by decide,
   ((digAt_correct sampleGrid3 1 1).2.1 (by decide)).1,
   ((digAt_correct sampleGrid3 1 1).2.1 (by decide)).2.2⟩

/-- C1: `getAffectedVisualTiles` returns exactly the four candidate tiles
(cx-1,cy-1), (cx,cy-1), (cx-1,cy), (cx,cy) filtered to the visual range
(hence at most 4 tiles), and mutating the base cell (cx,cy) leaves the
resolved tile index of every in-range visual tile outside that set
unchanged. -/
theorem getAffectedVisualTiles_spec (g : DualGridSystem) (cx cy : Int)
    (t : TerrainType)
    (_hcx : 0 ≤ cx ∧ cx < (g.width : Int))
    (_hcy : 0 ≤ cy ∧ cy < (g.height : Int)) :
    (∀ pos : Int × Int,
      pos ∈ getAffectedVisualTiles g cx cy ↔
        (pos ∈ ([(cx - 1, cy - 1), (cx, cy - 1),
                 (cx - 1, cy), (cx, cy)] : List (Int × Int)) ∧
         0 ≤ pos.1 ∧ pos.1 < (g.width : Int) ∧
         0 ≤ pos.2 ∧ pos.2 < (g.height : Int))) ∧
    (getAffectedVisualTiles g cx cy).length ≤ 4 ∧
    (∀ x y : Int, 0 ≤ x → x < (g.width : Int) → 0 ≤ y → y < (g.height : Int) →
      (x, y) ∉ getAffectedVisualTiles g cx cy →
      getTileIndex (setTerrainAt g cx cy t) x y = getTileIndex g x y) := by
  have hmem : ∀ pos : Int × Int,
      pos ∈ getAffectedVisualTiles g cx cy ↔
        (pos ∈ ([(cx - 1, cy - 1), (cx, cy - 1),
                 (cx - 1, cy), (cx, cy)] : List (Int × Int)) ∧
         0 ≤ pos.1 ∧ pos.1 < (g.width : Int) ∧
         0 ≤ pos.2 ∧ pos.2 < (g.height : Int)) := by
    intro pos
    simp [getAffectedVisualTiles, List.mem_filter]
  refine ⟨hmem, ?_, ?_⟩
  · have hsub := List.length_filter_le
      (fun (pos : Int × Int) => decide (0 ≤ pos.1 ∧ pos.1 < (g.width : Int) ∧
        0 ≤ pos.2 ∧ pos.2 < (g.height : Int)))
      ([(cx - 1, cy - 1), (cx, cy - 1), (cx - 1, cy), (cx, cy)] : List (Int × Int))
    simpa [getAffectedVisualTiles] using hsub
  · intro x y hx0 hxw hy0 hyh hnot
    have hnd : ¬((x = cx - 1 ∧ y = cy - 1) ∨ (x = cx ∧ y = cy - 1) ∨
        (x = cx - 1 ∧ y = cy) ∨ (x = cx ∧ y = cy)) := by
      intro hdisj
      apply hnot
      refine (hmem (x, y)).mpr ⟨?_, hx0, hxw, hy0, hyh⟩
      simp only [List.mem_cons, List.not_mem_nil, or_false, Prod.mk.injEq]
      tauto
    have e1 : getTerrainAt (setTerrainAt g cx cy t) x y = getTerrainAt g x y :=
      getTerrainAt_setTerrainAt_ne g cx cy x y t (by omega)
    have e2 : getTerrainAt (setTerrainAt g cx cy t) (x + 1) y =
        getTerrainAt g (x + 1) y :=
      getTerrainAt_setTerrainAt_ne g cx cy (x + 1) y t (by omega)
    have e3 : getTerrainAt (setTerrainAt g cx cy t) x (y + 1) =
        getTerrainAt g x (y + 1) :=
      getTerrainAt_setTerrainAt_ne g cx cy x (y + 1) t (by omega)
    have e4 : getTerrainAt (setTerrainAt g cx cy t) (x + 1) (y + 1) =
        getTerrainAt g (x + 1) (y + 1) :=
      getTerrainAt_setTerrainAt_ne g cx cy (x + 1) (y + 1) t (by omega)
    simp only [getTileIndex, getVisualTilePattern, e1, e2, e3, e4]

/-- Witness for C1: mutating (1,1) in the 3 by 3 sample grid does not change
the resolved index of the visual tile (2,2), which is outside the affected
set. -/
theorem getAffectedVisualTiles_spec_witness :
    getTileIndex (setTerrainAt sampleGrid3 1 1 TerrainType.EMPTY) 2 2 =
      getTileIndex sampleGrid3 2 2 :=
  (getAffectedVisualTiles_spec sampleGrid3 1 1 TerrainType.EMPTY
    (by decide) (by decide)).2.2 2 2
    (by decide) (by decide) (by decide) (by decide) (by decide)

/-!
## Map generator

Shallow embedding of the refactored `MapGenerator` class. The grid is a
list of rows of terrain states, mirroring the 2D JavaScript array;
`Math.random()` is a stream of rational draws consumed through a running
counter in the generator state.
-/

abbrev Grid := List (List TerrainType)

abbrev RandStream := Nat → ℚ

/-- Generator state: the grid under construction and the index of the next
random draw. -/
structure GenSt where
  grid : Grid
  k : Nat

/-- One call of `Math.random()`. -/
def draw (rs : RandStream) (s : GenSt) : ℚ × GenSt :=
  (rs s.k, { s with k := s.k + 1 })

/-- Write `grid[y][x] = t`. Writes outside the allocated rectangle leave the
grid unchanged; the source either guards such writes explicitly
(`connectCaverns`) or never performs them, and out-of-range JavaScript
array writes are invisible to all in-range reads. -/
def setCell (g : Grid) (x y : Int) (t : TerrainType) : Grid :=
  if 0 ≤ x ∧ 0 ≤ y then
    g.set y.toNat ((g[y.toNat]?.getD []).set x.toNat t)
  else g

/-- Read `grid[y][x]`. -/
def getCell (g : Grid) (x y : Int) : Option TerrainType :=
  if 0 ≤ x ∧ 0 ≤ y then (g[y.toNat]?).bind (fun row => row[x.toNat]?)
  else none

/-- `for (i = a; i < b; i++)` over a state. -/
def forRange {σ : Type _} (a b : Nat) (f : Nat → σ → σ) (s : σ) : σ :=
  (List.range' a (b - a)).foldl (fun s i => f i s) s

/-- `for (i = a; ...; i += step)` over a state, for `n` iterations. -/
def forRangeStep {σ : Type _} (a n step : Nat) (f : Nat → σ → σ) (s : σ) : σ :=
  (List.range' a n step).foldl (fun s i => f i s) s

def MAP_WIDTH : Nat := 20

def MAP_HEIGHT : Nat := 24

def HOME_BASE_HEIGHT : Nat := 3

def SEPARATOR_ROW : Nat := 3

def NECK_START : Nat := 4

def NECK_END : Nat := 8

def BODY_START : Nat := 8

def ENTRANCE_WIDTH : Nat := 3

def createEmptyGrid : Grid :=
  List.replicate MAP_HEIGHT (List.replicate MAP_WIDTH TerrainType.EMPTY)

def generateBorders (g : Grid) : Grid :=
  let g := forRange 0 MAP_HEIGHT (fun y g =>
    setCell (setCell g 0 y TerrainType.UNDIGGABLE)
      (MAP_WIDTH - 1) y TerrainType.UNDIGGABLE) g
  forRange 0 MAP_WIDTH (fun x g =>
    setCell (setCell g x 0 TerrainType.UNDIGGABLE)
      x (MAP_HEIGHT - 1) TerrainType.UNDIGGABLE) g

def generateHomeBase (g : Grid) : Grid :=
  forRange 1 HOME_BASE_HEIGHT (fun y g =>
    forRange 1 (MAP_WIDTH - 1) (fun x g => setCell g x y TerrainType.EMPTY) g) g

def generateSeparatorWithEntrance (g : Grid) : Grid :=
  let g := forRange 0 MAP_WIDTH (fun x g =>
    setCell g x SEPARATOR_ROW TerrainType.UNDIGGABLE) g
  let entranceX := (MAP_WIDTH - ENTRANCE_WIDTH) / 2
  forRange 0 ENTRANCE_WIDTH (fun i g =>
    setCell g (entranceX + i) SEPARATOR_ROW TerrainType.DIGGABLE) g

def generateNeck (rs : RandStream) (s : GenSt) : GenSt :=
  let neckWidth : Nat := 8
  let neckStart : Nat := (MAP_WIDTH - neckWidth) / 2
  let s := forRange NECK_START NECK_END (fun y s =>
    forRange 1 (MAP_WIDTH - 1) (fun x s =>
      if x < neckStart ∨ neckStart + neckWidth ≤ x then
        { s with grid := setCell s.grid x y TerrainType.UNDIGGABLE }
      else
        let rsx := draw rs s
        let t : TerrainType :=
          if rsx.1 < 3 / 10 then TerrainType.DIGGABLE else TerrainType.EMPTY
        { rsx.2 with grid := setCell rsx.2.grid x y t }) s) s
  forRange NECK_START NECK_END (fun y s =>
    forRange neckStart (neckStart + neckWidth) (fun x s =>
      let rsx := draw rs s
      if rsx.1 < 1 / 10 then
        { rsx.2 with grid := setCell rsx.2.grid x y TerrainType.UNDIGGABLE }
      else rsx.2) s) s

/-- `carveRandomPaths`: two random walks from the top of the body to its
bottom, forcing the visited cells to EMPTY. The walk state is the current
column paired with the generator state. -/
def carveRandomPaths (rs : RandStream) (s : GenSt) : GenSt :=
  forRange 0 2 (fun _ s =>
    let rsx := draw rs s
    let x0 : Int := ⌊rsx.1 * ((MAP_WIDTH : ℚ) - 4)⌋ + 2
    (forRange BODY_START (MAP_HEIGHT - 2) (fun y (p : Int × GenSt) =>
      let s1 : GenSt :=
        { p.2 with grid := setCell p.2.grid p.1 y TerrainType.EMPTY }
      let rd := draw rs s1
      let x' : Int :=
        if rd.1 < 3 / 10 ∧ 2 < p.1 then p.1 - 1
        else if rd.1 < 3 / 5 ∧ p.1 < (MAP_WIDTH : Int) - 3 then p.1 + 1
        else p.1
      (x', rd.2)) (x0, rsx.2)).2) s

def generateBellJarPlayArea (rs : RandStream) (s : GenSt) : GenSt :=
  let s := forRange BODY_START (MAP_HEIGHT - 1) (fun y s =>
    forRange 1 (MAP_WIDTH - 1) (fun x s =>
      let rsx := draw rs s
      let t : TerrainType :=
        if rsx.1 < 4 / 100 then TerrainType.EMPTY
        else if rsx.1 < 4 / 100 + 9 / 10 then TerrainType.DIGGABLE
        else TerrainType.UNDIGGABLE
      { rsx.2 with grid := setCell rsx.2.grid x y t }) s) s
  carveRandomPaths rs s

def generateSimpleBoxPlayArea (s : GenSt) : GenSt :=
  let g := forRange BODY_START (MAP_HEIGHT - 1) (fun y g =>
    forRange 1 (MAP_WIDTH - 1) (fun x g =>
      setCell g x y TerrainType.DIGGABLE) g) s.grid
  { s with grid := g }

/-- `createClearings`: three circular clearings of radius 2 at random
centers, clipped to the body interior by the explicit bounds guard of the
source. -/
def createClearings (rs : RandStream) (s : GenSt) : GenSt :=
  forRange 0 3 (fun _ s =>
    let r1 := draw rs s
    let r2 := draw rs r1.2
    let cx : Int := ⌊r1.1 * ((MAP_WIDTH : ℚ) - 8)⌋ + 4
    let cy : Int := ⌊r2.1 * ((MAP_HEIGHT : ℚ) - (BODY_START : ℚ) - 4)⌋ +
      (BODY_START : Int) + 2
    let radius : Int := 2
    let g := forRange 0 5 (fun dyi g =>
      forRange 0 5 (fun dxi g =>
        let dy : Int := (dyi : Int) - radius
        let dx : Int := (dxi : Int) - radius
        let x := cx + dx
        let y := cy + dy
        if 0 < x ∧ x < (MAP_WIDTH : Int) - 1 ∧
            (BODY_START : Int) ≤ y ∧ y < (MAP_HEIGHT : Int) - 1 then
          if dx * dx + dy * dy ≤ radius * radius then
            setCell g x y TerrainType.EMPTY
          else g
        else g) g) r2.2.grid
    { r2.2 with grid := g }) s

def generateOpenFieldPlayArea (rs : RandStream) (s : GenSt) : GenSt :=
  let s := forRange BODY_START (MAP_HEIGHT - 1) (fun y s =>
    forRange 1 (MAP_WIDTH - 1) (fun x s =>
      let rsx := draw rs s
      let t : TerrainType :=
        if rsx.1 < 2 / 5 then TerrainType.EMPTY
        else if rsx.1 < 4 / 5 then TerrainType.DIGGABLE
        else TerrainType.UNDIGGABLE
      { rsx.2 with grid := setCell rsx.2.grid x y t }) s) s
  createClearings rs s

/-- `generateMazePlayArea`. The two step-3 wall lattices run over
y = 8,11,14,17,20 (5 values below 23) and x = 2,5,8,11,14,17 (6 values
below 19), exactly the iterations of the source loops. -/
def generateMazePlayArea (rs : RandStream) (s : GenSt) : GenSt :=
  let g1 := forRange BODY_START (MAP_HEIGHT - 1) (fun y g =>
    forRange 1 (MAP_WIDTH - 1) (fun x g =>
      setCell g x y TerrainType.DIGGABLE) g) s.grid
  let s := { s with grid := g1 }
  let g2 := forRangeStep BODY_START 5 3 (fun y g =>
    forRangeStep 2 6 3 (fun x g =>
      if x < MAP_WIDTH - 1 ∧ y < MAP_HEIGHT - 1 then
        setCell g x y TerrainType.UNDIGGABLE
      else g) g) s.grid
  let s := { s with grid := g2 }
  let g3 := forRangeStep 2 6 3 (fun x g =>
    forRangeStep BODY_START 5 3 (fun y g =>
      if x < MAP_WIDTH - 1 ∧ y < MAP_HEIGHT - 1 then
        setCell g x y TerrainType.UNDIGGABLE
      else g) g) s.grid
  let s := { s with grid := g3 }
  forRange 0 8 (fun _ s =>
    let r1 := draw rs s
    let r2 := draw rs r1.2
    let x : Int := ⌊r1.1 * ((MAP_WIDTH : ℚ) - 2)⌋ + 1
    let y : Int := ⌊r2.1 * ((MAP_HEIGHT : ℚ) - (BODY_START : ℚ) - 1)⌋ +
      (BODY_START : Int)
    { r2.2 with grid := setCell r2.2.grid x y TerrainType.EMPTY }) s

/-- A cavern chamber: integer center (already floored at creation) and
rational radius. -/
structure Cavern where
  x : Int
  y : Int
  r : ℚ

/-- The horizontal `while (x !== tx)` tunnel loop of `connectCaverns`. The
fuel argument is instantiated with the exact distance, so the recursion
stops precisely when x reaches tx; the final column is returned for the
vertical loop. -/
def carveTunnelH (y tx : Int) : Nat → Grid → Int → Grid × Int
  | 0, g, x => (g, x)
  | fuel + 1, g, x =>
    if x = tx then (g, x)
    else carveTunnelH y tx fuel (setCell g x y TerrainType.DIGGABLE)
      (if x < tx then x + 1 else x - 1)

/-- The vertical `while (y !== ty)` tunnel loop of `connectCaverns`. -/
def carveTunnelV (x ty : Int) : Nat → Grid → Int → Grid
  | 0, g, _ => g
  | fuel + 1, g, y =>
    if y = ty then g
    else carveTunnelV x ty fuel (setCell g x y TerrainType.DIGGABLE)
      (if y < ty then y + 1 else y - 1)

def connectCaverns (caverns : List Cavern) (g : Grid) : Grid :=
  forRange 0 (caverns.length - 1) (fun i g =>
    match caverns[i]?, caverns[i + 1]? with
    | some c1, some c2 =>
      let hres := carveTunnelH c1.y c2.x (c2.x - c1.x).natAbs g c1.x
      carveTunnelV hres.2 c2.y (c2.y - c1.y).natAbs hres.1 c1.y
    | _, _ => g) g

/-- The cavern-center selection loop of `generateCavernPlayArea`: four
random centers (floored to integers) with random radii in [2,4). -/
def buildCaverns (rs : RandStream) (s : GenSt) : List Cavern × GenSt :=
  forRange 0 4 (fun _ (p : List Cavern × GenSt) =>
    let r1 := draw rs p.2
    let r2 := draw rs r1.2
    let r3 := draw rs r2.2
    let cx : Int := ⌊r1.1 * ((MAP_WIDTH : ℚ) - 8)⌋ + 4
    let cy : Int := ⌊r2.1 * ((MAP_HEIGHT : ℚ) - (BODY_START : ℚ) - 4)⌋ +
      (BODY_START : Int) + 2
    let radius : ℚ := r3.1 * 2 + 2
    (p.1 ++ [{ x := cx, y := cy, r := radius }], r3.2)) ([], s)

/-- `generateCavernPlayArea`. The comparison `Math.sqrt(dsq) < r` of the
source is embedded as `dsq < r ^ 2`, an exact equivalence for nonnegative
operands. -/
def generateCavernPlayArea (rs : RandStream) (s : GenSt) : GenSt :=
  let g1 := forRange BODY_START (MAP_HEIGHT - 1) (fun y g =>
    forRange 1 (MAP_WIDTH - 1) (fun x g =>
      setCell g x y TerrainType.UNDIGGABLE) g) s.grid
  let s := { s with grid := g1 }
  let cs := buildCaverns rs s
  let caverns := cs.1
  let s := cs.2
  let g2 := forRange BODY_START (MAP_HEIGHT - 1) (fun y g =>
    forRange 1 (MAP_WIDTH - 1) (fun x g =>
      caverns.foldl (fun g (c : Cavern) =>
        let dsq : ℚ := ((x : ℚ) - (c.x : ℚ)) ^ 2 + ((y : ℚ) - (c.y : ℚ)) ^ 2
        if dsq < c.r ^ 2 then setCell g x y TerrainType.EMPTY
        else if dsq < (c.r + 3 / 2) ^ 2 then setCell g x y TerrainType.DIGGABLE
        else g) g) g) s.grid
  let s := { s with grid := g2 }
  { s with grid := connectCaverns caverns s.grid }

/-- The `switch` of `generatePlayArea`; unknown strategies fall back to the
bell jar. -/
def generatePlayArea (rs : RandStream) (mapType : String) (s : GenSt) :
    GenSt :=
  if mapType = "bellJar" then generateBellJarPlayArea rs s
  else if mapType = "simpleBox" then generateSimpleBoxPlayArea s
  else if mapType = "openField" then generateOpenFieldPlayArea rs s
  else if mapType = "maze" then generateMazePlayArea rs s
  else if mapType = "cavern" then generateCavernPlayArea rs s
  else generateBellJarPlayArea rs s

def createBaseMapStructure (rs : RandStream) : GenSt :=
  generateNeck rs
    { grid := generateSeparatorWithEntrance
        (generateHomeBase (generateBorders createEmptyGrid)),
      k := 0 }

def generateMap (rs : RandStream) (mapType : String) : Grid :=
  (generatePlayArea rs mapType (createBaseMapStructure rs)).grid

/-- The mutable `MapGenerator` object state; only `currentMapType` varies at
run time. -/
structure MapGenerator where
  currentMapType : String

/-- `getPlayerStartPosition` of the refactored generator: the home-base
center, computed from the class constants only. -/
def getPlayerStartPosition (_m : MapGenerator) : Nat × Nat :=
  (MAP_WIDTH / 2, HOME_BASE_HEIGHT / 2)

/-- `isInHomeBase` of the refactored generator. -/
def isInHomeBase (x y : Int) : Bool :=
  decide (0 < y ∧ y < (HOME_BASE_HEIGHT : Int) ∧
          0 < x ∧ x < (MAP_WIDTH : Int) - 1)

/-!
## Fold and cell lemmas

Generic lemmas about `foldl`, `forRange` and `setCell`, used to reason
about the generator loops.
-/

theorem foldl_preserves {α σ : Type _} (P : σ → Prop) (f : σ → α → σ) :
    ∀ (l : List α) (s : σ), (∀ a ∈ l, ∀ s, P s → P (f s a)) → P s →
      P (l.foldl f s)
  | [], _, _, hs => hs
  | a :: l, s, h, hs =>
    foldl_preserves P f l (f s a)
      (fun b hb s hP => h b (List.mem_cons_of_mem a hb) s hP)
      (h a (List.mem_cons_self a l) s hs)

theorem foldl_obs {α σ β : Type _} (O : σ → β) (f : σ → α → σ) (l : List α)
    (h : ∀ a ∈ l, ∀ s, O (f s a) = O s) (s : σ) : O (l.foldl f s) = O s :=
  foldl_preserves (fun s2 => O s2 = O s) f l s
    (fun a ha s2 hP => (h a ha s2).trans hP) rfl

/-- If one index of the fold list forces the observation to `v` (under an
invariant `I`) and every other index leaves the observation unchanged, the
fold ends with observation `v`. -/
theorem foldl_set_once {α σ β : Type _} (I : σ → Prop) (O : σ → β)
    (f : σ → α → σ) (i0 : α) (v : β)
    (hset : ∀ s, I s → O (f s i0) = v) :
    ∀ (l : List α) (s : σ), i0 ∈ l →
      (∀ a ∈ l, ∀ s, I s → I (f s a)) →
      (∀ a ∈ l, a ≠ i0 → ∀ s, O (f s a) = O s) →
      I s → O (l.foldl f s) = v
  | [], _, hmem, _, _, _ => absurd hmem (List.not_mem_nil i0)
  | a :: l, s, hmem, hI, hpres, hs => by
    by_cases ha : a = i0
    · have h1 : I (f s a) := hI a (List.mem_cons_self a l) s hs
      have h2 : O (f s a) = v := by rw [ha]; exact hset s hs
      refine (foldl_preserves (fun s2 => I s2 ∧ O s2 = v) f l (f s a) ?_
        ⟨h1, h2⟩).2
      intro b hb s2 hP
      by_cases hbi : b = i0
      · exact ⟨hI b (List.mem_cons_of_mem a hb) s2 hP.1,
          by rw [hbi]; exact hset s2 hP.1⟩
      · exact ⟨hI b (List.mem_cons_of_mem a hb) s2 hP.1,
          (hpres b (List.mem_cons_of_mem a hb) hbi s2).trans hP.2⟩
    · have hmem2 : i0 ∈ l := by
        rcases List.mem_cons.mp hmem with h2 | h2
        · exact absurd h2.symm ha
        · exact h2
      exact foldl_set_once I O f i0 v hset l (f s a) hmem2
        (fun b hb => hI b (List.mem_cons_of_mem a hb))
        (fun b hb => hpres b (List.mem_cons_of_mem a hb))
        (hI a (List.mem_cons_self a l) s hs)

theorem forRange_preserves {σ : Type _} (P : σ → Prop) (a b : Nat)
    (f : Nat → σ → σ) (s : σ)
    (h : ∀ i, a ≤ i → i < b → ∀ s, P s → P (f i s)) (hs : P s) :
    P (forRange a b f s) := by
  unfold forRange
  refine foldl_preserves P _ _ s ?_ hs
  intro i hi s hP
  obtain ⟨k, hk, rfl⟩ := List.mem_range'.mp hi
  exact h _ (by omega) (by omega) s hP

theorem forRange_obs {σ β : Type _} (O : σ → β) (a b : Nat)
    (f : Nat → σ → σ) (s : σ)
    (h : ∀ i, a ≤ i → i < b → ∀ s, O (f i s) = O s) :
    O (forRange a b f s) = O s := by
  unfold forRange
  refine foldl_obs O _ _ ?_ s
  intro i hi s
  obtain ⟨k, hk, rfl⟩ := List.mem_range'.mp hi
  exact h _ (by omega) (by omega) s

theorem forRange_set_once {σ β : Type _} (I : σ → Prop) (O : σ → β)
    (a b : Nat) (f : Nat → σ → σ) (i0 : Nat) (v : β)
    (hi0 : a ≤ i0 ∧ i0 < b)
    (hI : ∀ i, a ≤ i → i < b → ∀ s, I s → I (f i s))
    (hset : ∀ s, I s → O (f i0 s) = v)
    (hpres : ∀ i, a ≤ i → i < b → i ≠ i0 → ∀ s, O (f i s) = O s)
    (s : σ) (hs : I s) : O (forRange a b f s) = v := by
  unfold forRange
  refine foldl_set_once I O _ i0 v hset _ s ?_ ?_ ?_ hs
  · exact List.mem_range'.mpr ⟨i0 - a, by omega, by omega⟩
  · intro i hi
    obtain ⟨k, hk, rfl⟩ := List.mem_range'.mp hi
    exact hI _ (by omega) (by omega)
  · intro i hi hne
    obtain ⟨k, hk, rfl⟩ := List.mem_range'.mp hi
    exact hpres _ (by omega) (by omega) hne

theorem forRangeStep_preserves {σ : Type _} (P : σ → Prop) (a n step : Nat)
    (f : Nat → σ → σ) (s : σ)
    (h : ∀ i, (∃ k, k < n ∧ i = a + step * k) → ∀ s, P s → P (f i s))
    (hs : P s) : P (forRangeStep a n step f s) := by
  unfold forRangeStep
  refine foldl_preserves P _ _ s ?_ hs
  intro i hi s hP
  obtain ⟨k, hk, rfl⟩ := List.mem_range'.mp hi
  exact h _ ⟨k, hk, rfl⟩ s hP

/-- Full pointwise characterization of `setCell`: the written cell gets the
new value when it exists in the grid, and every other cell keeps its
value. -/
theorem getCell_setCell (g : Grid) (x y x' y' : Int) (t : TerrainType) :
    getCell (setCell g x y t) x' y' =
      if x' = x ∧ y' = y ∧ (getCell g x y).isSome then some t
      else getCell g x' y' := by
  by_cases hxy : 0 ≤ x ∧ 0 ≤ y
  case neg =>
    have hset : setCell g x y t = g := by unfold setCell; rw [if_neg hxy]
    have hnone : getCell g x y = none := by unfold getCell; rw [if_neg hxy]
    rw [hset, hnone, if_neg (by rintro ⟨-, -, hsome⟩; simp at hsome)]
  case pos =>
    have hset : setCell g x y t =
        g.set y.toNat ((g[y.toNat]?.getD []).set x.toNat t) := by
      unfold setCell; rw [if_pos hxy]
    by_cases hxy' : 0 ≤ x' ∧ 0 ≤ y'
    case neg =>
      have h1 : getCell (setCell g x y t) x' y' = none := by
        unfold getCell; rw [if_neg hxy']
      have h2 : getCell g x' y' = none := by
        unfold getCell; rw [if_neg hxy']
      rw [h1, h2, if_neg (by rintro ⟨rfl, rfl, -⟩; exact hxy' hxy)]
    case pos =>
      have hL : getCell (setCell g x y t) x' y' =
          ((g.set y.toNat ((g[y.toNat]?.getD []).set x.toNat t))[y'.toNat]?).bind
            (fun row => row[x'.toNat]?) := by
        rw [hset]; unfold getCell; rw [if_pos hxy']
      have hR : getCell g x' y' =
          (g[y'.toNat]?).bind (fun row => row[x'.toNat]?) := by
        unfold getCell; rw [if_pos hxy']
      have hC : getCell g x y =
          (g[y.toNat]?).bind (fun row => row[x.toNat]?) := by
        unfold getCell; rw [if_pos hxy]
      rw [hL, hR, hC, List.getElem?_set]
      by_cases hy : y.toNat = y'.toNat
      · rw [if_pos hy]
        have hyy : y' = y := by omega
        by_cases hlen : y.toNat < g.length
        · rw [if_pos hlen]
          rcases hrow : g[y.toNat]? with _ | row
          · have ht := List.getElem?_eq_getElem hlen
            rw [hrow] at ht
            simp at ht
          · rw [← hy, hrow]
            simp only [Option.getD_some, Option.some_bind]
            rw [List.getElem?_set]
            by_cases hx : x.toNat = x'.toNat
            · have hxx : x' = x := by omega
              rw [if_pos hx]
              by_cases hxlt : x.toNat < row.length
              · rw [if_pos hxlt,
                  if_pos ⟨hxx, hyy, by rw [List.getElem?_eq_getElem hxlt]; rfl⟩]
              · rw [if_neg hxlt]
                have hrnone : row[x.toNat]? = none :=
                  List.getElem?_eq_none (by omega)
                have hrnone2 : row[x'.toNat]? = none := by
                  rw [← hx]; exact hrnone
                rw [hrnone, hrnone2]
                simp
            · rw [if_neg hx, if_neg (by omega)]
        · rw [if_neg hlen]
          have hnone : g[y.toNat]? = none := List.getElem?_eq_none (by omega)
          have hnone2 : g[y'.toNat]? = none := by rw [← hy]; exact hnone
          rw [hnone, hnone2]
          simp
      · rw [if_neg hy, if_neg (by rintro ⟨-, rfl, -⟩; exact hy rfl)]

theorem getCell_setCell_ne (g : Grid) (x y x' y' : Int) (t : TerrainType)
    (h : ¬(x' = x ∧ y' = y)) :
    getCell (setCell g x y t) x' y' = getCell g x' y' := by
  rw [getCell_setCell]
  exact if_neg (by tauto)

theorem isSome_getCell_setCell (g : Grid) (x y x' y' : Int) (t : TerrainType) :
    (getCell (setCell g x y t) x' y').isSome = (getCell g x' y').isSome := by
  rw [getCell_setCell]
  split_ifs with h
  · obtain ⟨rfl, rfl, hsome⟩ := h
    simp [hsome]
  · rfl

theorem forRangeStep_obs {σ β : Type _} (O : σ → β) (a n step : Nat)
    (f : Nat → σ → σ) (s : σ)
    (h : ∀ i, (∃ k, k < n ∧ i = a + step * k) → ∀ s, O (f i s) = O s) :
    O (forRangeStep a n step f s) = O s := by
  unfold forRangeStep
  refine foldl_obs O _ _ ?_ s
  intro i hi s
  obtain ⟨k, hk, rfl⟩ := List.mem_range'.mp hi
  exact h _ ⟨k, hk, rfl⟩ s

/-- Bounds for `Math.floor(Math.random() * c)` when the draw lies in
[0,1). -/
theorem floor_bounds_q (r : ℚ) (h0 : 0 ≤ r) (h1 : r < 1) (c : ℚ) (m : Int)
    (hc : 0 < c) (hcm : c ≤ (m : ℚ)) :
    0 ≤ ⌊r * c⌋ ∧ ⌊r * c⌋ ≤ m - 1 := by
  constructor
  · exact Int.floor_nonneg.mpr (by positivity)
  · have hlt : r * c < (m : ℚ) := by nlinarith
    have := Int.floor_lt.mpr hlt
    omega

/-- The deterministic part of the base structure: empty grid, borders, home
base and separator, before the randomized neck. -/
def baseG3 : Grid :=
  generateSeparatorWithEntrance (generateHomeBase (generateBorders createEmptyGrid))

theorem createBaseMapStructure_eq (rs : RandStream) :
    createBaseMapStructure rs = generateNeck rs { grid := baseG3, k := 0 } := rfl

/-- `generateNeck` only writes inside the neck rows 4..7, interior
columns. -/
theorem generateNeck_frame (rs : RandStream) (s : GenSt) (x y : Int)
    (hout : ¬(1 ≤ x ∧ x < 19 ∧ 4 ≤ y ∧ y < 8)) :
    getCell (generateNeck rs s).grid x y = getCell s.grid x y := by
  have eNS : NECK_START = 4 := rfl
  have eNE : NECK_END = 8 := rfl
  have eMW : MAP_WIDTH = 20 := rfl
  unfold generateNeck
  dsimp only
  refine (forRange_obs (fun s2 : GenSt => getCell s2.grid x y) _ _ _ _
      ?_).trans
    (forRange_obs (fun s2 : GenSt => getCell s2.grid x y) _ _ _ _ ?_)
  · intro j hj1 hj2 s2
    refine forRange_obs (fun s3 : GenSt => getCell s3.grid x y) _ _ _ _ ?_
    intro i hi1 hi2 s3
    dsimp only [draw]
    split_ifs <;>
      first
      | rfl
      | (dsimp only; refine getCell_setCell_ne _ _ _ _ _ _ ?_; omega)
  · intro j hj1 hj2 s2
    refine forRange_obs (fun s3 : GenSt => getCell s3.grid x y) _ _ _ _ ?_
    intro i hi1 hi2 s3
    dsimp only [draw]
    split_ifs <;>
      first
      | rfl
      | (dsimp only; refine getCell_setCell_ne _ _ _ _ _ _ ?_; omega)

/-- `generateNeck` never changes which cells exist. -/
theorem generateNeck_isSome (rs : RandStream) (s : GenSt) (x y : Int) :
    (getCell (generateNeck rs s).grid x y).isSome =
      (getCell s.grid x y).isSome := by
  unfold generateNeck
  dsimp only
  refine (forRange_obs (fun s2 : GenSt => (getCell s2.grid x y).isSome)
      _ _ _ _ ?_).trans
    (forRange_obs (fun s2 : GenSt => (getCell s2.grid x y).isSome) _ _ _ _ ?_)
  · intro j hj1 hj2 s2
    refine forRange_obs (fun s3 : GenSt => (getCell s3.grid x y).isSome)
      _ _ _ _ ?_
    intro i hi1 hi2 s3
    dsimp only [draw]
    split_ifs <;>
      first
      | rfl
      | (dsimp only; exact isSome_getCell_setCell _ _ _ _ _ _)
  · intro j hj1 hj2 s2
    refine forRange_obs (fun s3 : GenSt => (getCell s3.grid x y).isSome)
      _ _ _ _ ?_
    intro i hi1 hi2 s3
    dsimp only [draw]
    split_ifs <;>
      first
      | rfl
      | (dsimp only; exact isSome_getCell_setCell _ _ _ _ _ _)

/-- `generateSimpleBoxPlayArea` only writes inside the body rectangle. -/
theorem generateSimpleBoxPlayArea_frame (s : GenSt) (x y : Int)
    (hout : ¬(1 ≤ x ∧ x < 19 ∧ 8 ≤ y ∧ y < 23)) :
    getCell (generateSimpleBoxPlayArea s).grid x y = getCell s.grid x y := by
  have eBS : BODY_START = 8 := rfl
  have eMH : MAP_HEIGHT = 24 := rfl
  have eMW : MAP_WIDTH = 20 := rfl
  unfold generateSimpleBoxPlayArea
  dsimp only
  refine forRange_obs (fun g : Grid => getCell g x y) _ _ _ _ ?_
  intro j hj1 hj2 g
  refine forRange_obs (fun g : Grid => getCell g x y) _ _ _ _ ?_
  intro i hi1 hi2 g
  refine getCell_setCell_ne _ _ _ _ _ _ ?_
  omega

/-- `generateSimpleBoxPlayArea` fills every present body cell with
DIGGABLE. -/
theorem generateSimpleBoxPlayArea_effect (s : GenSt) (x y : Int)
    (hin : 1 ≤ x ∧ x < 19 ∧ 8 ≤ y ∧ y < 23)
    (hsome : (getCell s.grid x y).isSome = true) :
    getCell (generateSimpleBoxPlayArea s).grid x y =
      some TerrainType.DIGGABLE := by
  have eBS : BODY_START = 8 := rfl
  have eMH : MAP_HEIGHT = 24 := rfl
  have eMW : MAP_WIDTH = 20 := rfl
  have hxc : ((x.toNat : Int)) = x := Int.toNat_of_nonneg (by omega)
  have hyc : ((y.toNat : Int)) = y := Int.toNat_of_nonneg (by omega)
  unfold generateSimpleBoxPlayArea
  dsimp only
  refine forRange_set_once (fun g : Grid => (getCell g x y).isSome = true)
    (fun g : Grid => getCell g x y) BODY_START (MAP_HEIGHT - 1) _ y.toNat
    (some TerrainType.DIGGABLE) (by omega) ?_ ?_ ?_ s.grid hsome
  · intro j hj1 hj2 g hg
    have hobs := forRange_obs (fun g : Grid => (getCell g x y).isSome)
      1 (MAP_WIDTH - 1)
      (fun i g => setCell g (i : Int) (j : Int) TerrainType.DIGGABLE) g
      (fun i _ _ g => isSome_getCell_setCell _ _ _ _ _ _)
    exact hobs.trans hg
  · intro g hg
    refine forRange_set_once (fun g : Grid => (getCell g x y).isSome = true)
      (fun g : Grid => getCell g x y) 1 (MAP_WIDTH - 1) _ x.toNat
      (some TerrainType.DIGGABLE) (by omega) ?_ ?_ ?_ g hg
    · intro i _ _ g hg2
      rw [isSome_getCell_setCell]
      exact hg2
    · intro g hg2
      dsimp only
      rw [getCell_setCell, hxc, hyc, if_pos ⟨rfl, rfl, hg2⟩]
    · intro i _ _ hne g
      refine getCell_setCell_ne _ _ _ _ _ _ ?_
      omega
  · intro j _ _ hne g
    refine forRange_obs (fun g : Grid => getCell g x y) _ _ _ _ ?_
    intro i _ _ g
    refine getCell_setCell_ne _ _ _ _ _ _ ?_
    omega

/-- Pointwise value of the simple-box map at every cell outside the neck
interior: body cells are DIGGABLE, all other cells keep their deterministic
pre-neck value. -/
theorem generateMap_simpleBox_cell (rs : RandStream) (x y : Int)
    (hx : 0 ≤ x ∧ x < 20) (hy : 0 ≤ y ∧ y < 24)
    (hneck : ¬(1 ≤ x ∧ x < 19 ∧ 4 ≤ y ∧ y < 8)) :
    getCell (generateMap rs "simpleBox") x y =
      if 1 ≤ x ∧ x < 19 ∧ 8 ≤ y ∧ y < 23 then some TerrainType.DIGGABLE
      else getCell baseG3 x y := by
  have hprofN : ∀ a : Nat, a < 20 → ∀ b : Nat, b < 24 →
      (getCell baseG3 (a : Int) (b : Int)).isSome = true := by decide
  have hprof : (getCell baseG3 x y).isSome = true := by
    have h := hprofN x.toNat (by omega) y.toNat (by omega)
    rwa [Int.toNat_of_nonneg hx.1, Int.toNat_of_nonneg hy.1] at h
  have hdisp : generateMap rs "simpleBox" =
      (generateSimpleBoxPlayArea (createBaseMapStructure rs)).grid := rfl
  rw [hdisp]
  by_cases hbody : 1 ≤ x ∧ x < 19 ∧ 8 ≤ y ∧ y < 23
  · rw [if_pos hbody]
    refine generateSimpleBoxPlayArea_effect _ _ _ hbody ?_
    rw [createBaseMapStructure_eq, generateNeck_isSome]
    exact hprof
  · rw [if_neg hbody, generateSimpleBoxPlayArea_frame _ _ _ hbody,
      createBaseMapStructure_eq, generateNeck_frame _ _ _ _ (by omega)]

/-- C5 (amended): for every run of the generator, the simple-box map has a
fully UNDIGGABLE border ring, EMPTY home-base interior rows 1..2, separator
row 3 UNDIGGABLE except the centered 3-cell DIGGABLE entrance at columns
8..10, and a fully DIGGABLE body interior (rows 8..22); moreover every cell
outside the randomized neck interior (rows 4..7, columns 1..18) agrees
between any two runs. -/
theorem generateMap_simpleBox_zones (rs rs2 : RandStream) :
    (∀ x : Nat, x < 20 →
      getCell (generateMap rs "simpleBox") (x : Int) 0 =
        some TerrainType.UNDIGGABLE ∧
      getCell (generateMap rs "simpleBox") (x : Int) 23 =
        some TerrainType.UNDIGGABLE) ∧
    (∀ y : Nat, y < 24 →
      getCell (generateMap rs "simpleBox") 0 (y : Int) =
        some TerrainType.UNDIGGABLE ∧
      getCell (generateMap rs "simpleBox") 19 (y : Int) =
        some TerrainType.UNDIGGABLE) ∧
    (∀ x y : Nat, 1 ≤ x → x < 19 → 1 ≤ y → y < 3 →
      getCell (generateMap rs "simpleBox") (x : Int) (y : Int) =
        some TerrainType.EMPTY) ∧
    (∀ x : Nat, x < 20 →
      getCell (generateMap rs "simpleBox") (x : Int) 3 =
        some (if 8 ≤ x ∧ x < 11 then TerrainType.DIGGABLE
              else TerrainType.UNDIGGABLE)) ∧
    (∀ x y : Nat, 1 ≤ x → x < 19 → 8 ≤ y → y < 23 →
      getCell (generateMap rs "simpleBox") (x : Int) (y : Int) =
        some TerrainType.DIGGABLE) ∧
    (∀ x y : Nat, x < 20 → y < 24 → ¬(1 ≤ x ∧ x < 19 ∧ 4 ≤ y ∧ y < 8) →
      getCell (generateMap rs "simpleBox") (x : Int) (y : Int) =
        getCell (generateMap rs2 "simpleBox") (x : Int) (y : Int)) := by
  have hb1 : ∀ a : Nat, a < 20 →
      getCell baseG3 (a : Int) 0 = some TerrainType.UNDIGGABLE := by decide
  have hb2 : ∀ a : Nat, a < 20 →
      getCell baseG3 (a : Int) 23 = some TerrainType.UNDIGGABLE := by decide
  have hb3 : ∀ b : Nat, b < 24 →
      getCell baseG3 0 (b : Int) = some TerrainType.UNDIGGABLE := by decide
  have hb4 : ∀ b : Nat, b < 24 →
      getCell baseG3 19 (b : Int) = some TerrainType.UNDIGGABLE := by decide
  have hhome : ∀ a : Nat, a < 19 → ∀ b : Nat, b < 3 → 1 ≤ a → 1 ≤ b →
      getCell baseG3 (a : Int) (b : Int) = some TerrainType.EMPTY := by decide
  have hsep : ∀ a : Nat, a < 20 →
      getCell baseG3 (a : Int) 3 =
        some (if 8 ≤ a ∧ a < 11 then TerrainType.DIGGABLE
              else TerrainType.UNDIGGABLE) := by decide
  refine ⟨?_, ?_, ?_, ?_, ?_, ?_⟩
  · intro x hx
    constructor
    · rw [generateMap_simpleBox_cell rs (x : Int) 0 (by omega) (by omega)
        (by omega), if_neg (by omega)]
      exact hb1 x hx
    · rw [generateMap_simpleBox_cell rs (x : Int) 23 (by omega) (by omega)
        (by omega), if_neg (by omega)]
      exact hb2 x hx
  · intro y hy
    constructor
    · rw [generateMap_simpleBox_cell rs 0 (y : Int) (by omega) (by omega)
        (by omega), if_neg (by omega)]
      exact hb3 y hy
    · rw [generateMap_simpleBox_cell rs 19 (y : Int) (by omega) (by omega)
        (by omega), if_neg (by omega)]
      exact hb4 y hy
  · intro x y hx1 hx2 hy1 hy2
    rw [generateMap_simpleBox_cell rs (x : Int) (y : Int) (by omega) (by omega)
      (by omega), if_neg (by omega)]
    exact hhome x (by omega) y (by omega) hx1 hy1
  · intro x hx
    rw [generateMap_simpleBox_cell rs (x : Int) 3 (by omega) (by omega)
      (by omega), if_neg (by omega)]
    exact hsep x hx
  · intro x y hx1 hx2 hy1 hy2
    rw [generateMap_simpleBox_cell rs (x : Int) (y : Int) (by omega) (by omega)
      (by omega), if_pos (by omega)]
  · intro x y hx hy hneck
    rw [generateMap_simpleBox_cell rs (x : Int) (y : Int) (by omega) (by omega)
      (by omega),
      generateMap_simpleBox_cell rs2 (x : Int) (y : Int) (by omega) (by omega)
      (by omega)]

/-- Witness for the amended C5 at a concrete body cell. -/
theorem generateMap_simpleBox_zones_witness :
    getCell (generateMap (fun _ => 0) "simpleBox") 5 10 =
      some TerrainType.DIGGABLE :=
  (generateMap_simpleBox_zones (fun _ => 0) (fun _ => 0)).2.2.2.2.1 5 10
    (by omega) (by omega) (by omega) (by omega)

/-- Value of a neck corridor cell after `generateNeck` when every random
draw returns the same value `q`: the second pass stamps UNDIGGABLE when
`q < 0.1`, otherwise the first pass value (DIGGABLE when `q < 0.3`, else
EMPTY) survives. -/
theorem generateNeck_const_corridor (q : ℚ) (s : GenSt) (x y : Int)
    (hin : 6 ≤ x ∧ x < 14 ∧ 4 ≤ y ∧ y < 8)
    (hsome : (getCell s.grid x y).isSome = true) :
    getCell (generateNeck (fun _ => q) s).grid x y =
      some (if q < 1 / 10 then TerrainType.UNDIGGABLE
            else if q < 3 / 10 then TerrainType.DIGGABLE
            else TerrainType.EMPTY) := by
  have eNS : NECK_START = 4 := rfl
  have eNE : NECK_END = 8 := rfl
  have eMW : MAP_WIDTH = 20 := rfl
  have hxc : ((x.toNat : Int)) = x := Int.toNat_of_nonneg (by omega)
  have hyc : ((y.toNat : Int)) = y := Int.toNat_of_nonneg (by omega)
  unfold generateNeck
  dsimp only
  by_cases hq : q < 1 / 10
  · -- second pass overwrites the corridor cell with UNDIGGABLE
    rw [if_pos hq]
    refine forRange_set_once
      (fun s3 : GenSt => (getCell s3.grid x y).isSome = true)
      (fun s3 : GenSt => getCell s3.grid x y) NECK_START NECK_END _ y.toNat
      _ (by omega) ?_ ?_ ?_ _ ?_
    · intro j _ _ s3 hs3
      refine Eq.trans (forRange_obs
        (fun s4 : GenSt => (getCell s4.grid x y).isSome) _ _ _ _ ?_) hs3
      intro i _ _ s4
      dsimp only [draw]
      split_ifs <;>
        first
        | rfl
        | (dsimp only; exact isSome_getCell_setCell _ _ _ _ _ _)
    · intro s3 hs3
      refine forRange_set_once
        (fun s4 : GenSt => (getCell s4.grid x y).isSome = true)
        (fun s4 : GenSt => getCell s4.grid x y)
        ((MAP_WIDTH - 8) / 2) ((MAP_WIDTH - 8) / 2 + 8) _ x.toNat
        _ (by omega) ?_ ?_ ?_ s3 hs3
      · intro i _ _ s4 hs4
        dsimp only [draw]
        split_ifs <;>
          first
          | exact hs4
          | (dsimp only;
             exact (isSome_getCell_setCell _ _ _ _ _ _).trans hs4)
      · intro s4 hs4
        dsimp only [draw]
        rw [if_pos hq]
        dsimp only
        rw [getCell_setCell, hxc, hyc, if_pos ⟨rfl, rfl, hs4⟩]
      · intro i _ _ hne s4
        dsimp only [draw]
        split_ifs <;>
          first
          | rfl
          | (dsimp only; refine getCell_setCell_ne _ _ _ _ _ _ ?_; omega)
    · intro j _ _ hne s3
      refine forRange_obs (fun s4 : GenSt => getCell s4.grid x y) _ _ _ _ ?_
      intro i _ _ s4
      dsimp only [draw]
      split_ifs <;>
        first
        | rfl
        | (dsimp only; refine getCell_setCell_ne _ _ _ _ _ _ ?_; omega)
    · -- the cell is still present after the first pass
      refine Eq.trans (forRange_obs
        (fun s3 : GenSt => (getCell s3.grid x y).isSome) _ _ _ _ ?_) hsome
      intro j _ _ s3
      refine forRange_obs
        (fun s4 : GenSt => (getCell s4.grid x y).isSome) _ _ _ _ ?_
      intro i _ _ s4
      dsimp only [draw]
      split_ifs <;>
        first
        | rfl
        | (dsimp only; exact isSome_getCell_setCell _ _ _ _ _ _)
  · -- the second pass never writes, so the first pass value survives
    rw [if_neg hq]
    refine Eq.trans (forRange_obs (fun s3 : GenSt => getCell s3.grid x y)
      _ _ _ _ ?_) ?_
    · intro j _ _ s3
      refine forRange_obs (fun s4 : GenSt => getCell s4.grid x y) _ _ _ _ ?_
      intro i _ _ s4
      dsimp only [draw]
      rw [if_neg hq]
    · -- first pass: the target corridor cell gets its draw value
      refine forRange_set_once
        (fun s3 : GenSt => (getCell s3.grid x y).isSome = true)
        (fun s3 : GenSt => getCell s3.grid x y) NECK_START NECK_END _ y.toNat
        _ (by omega) ?_ ?_ ?_ s hsome
      · intro j _ _ s3 hs3
        refine Eq.trans (forRange_obs
          (fun s4 : GenSt => (getCell s4.grid x y).isSome) _ _ _ _ ?_) hs3
        intro i _ _ s4
        dsimp only [draw]
        split_ifs <;>
          first
          | rfl
          | (dsimp only; exact isSome_getCell_setCell _ _ _ _ _ _)
      · intro s3 hs3
        refine forRange_set_once
          (fun s4 : GenSt => (getCell s4.grid x y).isSome = true)
          (fun s4 : GenSt => getCell s4.grid x y) 1 (MAP_WIDTH - 1) _ x.toNat
          _ (by omega) ?_ ?_ ?_ s3 hs3
        · intro i _ _ s4 hs4
          dsimp only [draw]
          split_ifs <;>
            first
            | exact hs4
            | (dsimp only;
               exact (isSome_getCell_setCell _ _ _ _ _ _).trans hs4)
        · intro s4 hs4
          dsimp only [draw]
          rw [if_neg (by omega)]
          dsimp only
          rw [getCell_setCell, hxc, hyc, if_pos ⟨rfl, rfl, hs4⟩]
        · intro i _ _ hne s4
          dsimp only [draw]
          split_ifs <;>
            first
            | rfl
            | (dsimp only; refine getCell_setCell_ne _ _ _ _ _ _ ?_; omega)
      · intro j _ _ hne s3
        refine forRange_obs (fun s4 : GenSt => getCell s4.grid x y) _ _ _ _ ?_
        intro i _ _ s4
        dsimp only [draw]
        split_ifs <;>
          first
          | rfl
          | (dsimp only; refine getCell_setCell_ne _ _ _ _ _ _ ?_; omega)

/-- Counterexample to the determinism part of C5: two legitimate random
streams (constantly 0 and constantly 1/2, both inside [0,1)) produce
different simple-box grids, because the shared neck phase is randomized. -/
theorem generateMap_simpleBox_not_deterministic :
    (∀ n : Nat, 0 ≤ (fun _ : Nat => (0 : ℚ)) n ∧
      (fun _ : Nat => (0 : ℚ)) n < 1) ∧
    (∀ n : Nat, 0 ≤ (fun _ : Nat => (1 : ℚ) / 2) n ∧
      (fun _ : Nat => (1 : ℚ) / 2) n < 1) ∧
    generateMap (fun _ => (0 : ℚ)) "simpleBox" ≠
      generateMap (fun _ => (1 : ℚ) / 2) "simpleBox" := by
  refine ⟨fun n => ⟨le_refl 0, by norm_num⟩,
    fun n => ⟨by norm_num, by norm_num⟩, ?_⟩
  intro heq
  have hsome : (getCell baseG3 (6 : Int) (4 : Int)).isSome = true := by decide
  have h1 : getCell (generateMap (fun _ => (0 : ℚ)) "simpleBox") 6 4 =
      some TerrainType.UNDIGGABLE := by
    have hd : generateMap (fun _ => (0 : ℚ)) "simpleBox" =
        (generateSimpleBoxPlayArea
          (createBaseMapStructure (fun _ => (0 : ℚ)))).grid := rfl
    rw [hd, generateSimpleBoxPlayArea_frame _ _ _ (by omega),
      createBaseMapStructure_eq,
      generateNeck_const_corridor 0 _ 6 4 (by omega) hsome,
      if_pos (by norm_num : (0 : ℚ) < 1 / 10)]
  have h2 : getCell (generateMap (fun _ => (1 : ℚ) / 2) "simpleBox") 6 4 =
      some TerrainType.EMPTY := by
    have hd : generateMap (fun _ => (1 : ℚ) / 2) "simpleBox" =
        (generateSimpleBoxPlayArea
          (createBaseMapStructure (fun _ => (1 : ℚ) / 2))).grid := rfl
    rw [hd, generateSimpleBoxPlayArea_frame _ _ _ (by omega),
      createBaseMapStructure_eq,
      generateNeck_const_corridor ((1 : ℚ) / 2) _ 6 4 (by omega) hsome,
      if_neg (by norm_num : ¬((1 : ℚ) / 2 < 1 / 10)),
      if_neg (by norm_num : ¬((1 : ℚ) / 2 < 3 / 10))]
  rw [heq, h2] at h1
  exact absurd h1 (by decide)

/-- C8: the refactored generator computes the spawn point from its zone
constants alone — the home-base horizontal center at the vertical center of
the home-base rows, which is (10, 1) for the 20 by 24 configuration — no
matter which strategy is currently selected or was used to generate the
map. -/
theorem getPlayerStartPosition_const (m : MapGenerator) :
    getPlayerStartPosition m = (10, 1) := rfl

/-- `carveRandomPaths` only writes inside the interior rectangle: the walk
column stays inside [2,17] and the rows inside [8,21]. -/
theorem carveRandomPaths_frame (rs : RandStream)
    (hrs : ∀ n, 0 ≤ rs n ∧ rs n < 1) (s : GenSt) (x y : Int)
    (hout : ¬(1 ≤ x ∧ x < 19 ∧ 1 ≤ y ∧ y < 23)) :
    getCell (carveRandomPaths rs s).grid x y = getCell s.grid x y := by
  have eBS : BODY_START = 8 := rfl
  have eMH : MAP_HEIGHT = 24 := rfl
  have eMW : MAP_WIDTH = 20 := rfl
  unfold carveRandomPaths
  refine forRange_obs (fun s2 : GenSt => getCell s2.grid x y) _ _ _ _ ?_
  intro p _ _ s2
  dsimp only [draw]
  have hfl := floor_bounds_q (rs s2.k) (hrs s2.k).1 (hrs s2.k).2
    ((MAP_WIDTH : ℚ) - 4) 16 (by norm_num [MAP_WIDTH]) (by norm_num [MAP_WIDTH])
  refine (forRange_preserves
    (fun pst : Int × GenSt => (2 ≤ pst.1 ∧ pst.1 ≤ 17) ∧
      getCell pst.2.grid x y = getCell s2.grid x y)
    BODY_START (MAP_HEIGHT - 2) _ _ ?_ ⟨⟨by omega, by omega⟩, rfl⟩).2
  intro j hj1 hj2 pst hP
  dsimp only [draw]
  obtain ⟨⟨hb1, hb2⟩, hobs⟩ := hP
  constructor
  · constructor
    · split_ifs with h1 h2
      · have h := h1.2
        omega
      · omega
      · omega
    · split_ifs with h1 h2
      · omega
      · have h := h2.2
        omega
      · omega
  · refine Eq.trans ?_ hobs
    refine getCell_setCell_ne _ _ _ _ _ _ ?_
    omega

/-- `generateBellJarPlayArea` only writes inside the interior rectangle. -/
theorem generateBellJarPlayArea_frame (rs : RandStream)
    (hrs : ∀ n, 0 ≤ rs n ∧ rs n < 1) (s : GenSt) (x y : Int)
    (hout : ¬(1 ≤ x ∧ x < 19 ∧ 1 ≤ y ∧ y < 23)) :
    getCell (generateBellJarPlayArea rs s).grid x y = getCell s.grid x y := by
  have eBS : BODY_START = 8 := rfl
  have eMH : MAP_HEIGHT = 24 := rfl
  have eMW : MAP_WIDTH = 20 := rfl
  unfold generateBellJarPlayArea
  dsimp only
  refine (carveRandomPaths_frame rs hrs _ x y hout).trans ?_
  refine forRange_obs (fun s2 : GenSt => getCell s2.grid x y) _ _ _ _ ?_
  intro j hj1 hj2 s2
  refine forRange_obs (fun s3 : GenSt => getCell s3.grid x y) _ _ _ _ ?_
  intro i hi1 hi2 s3
  dsimp only [draw]
  refine getCell_setCell_ne _ _ _ _ _ _ ?_
  omega

/-- `createClearings` only writes inside the interior rectangle, because of
the bounds guard of the source. -/
theorem createClearings_frame (rs : RandStream) (s : GenSt) (x y : Int)
    (hout : ¬(1 ≤ x ∧ x < 19 ∧ 1 ≤ y ∧ y < 23)) :
    getCell (createClearings rs s).grid x y = getCell s.grid x y := by
  have eBS : BODY_START = 8 := rfl
  have eMH : MAP_HEIGHT = 24 := rfl
  have eMW : MAP_WIDTH = 20 := rfl
  unfold createClearings
  refine forRange_obs (fun s2 : GenSt => getCell s2.grid x y) _ _ _ _ ?_
  intro p _ _ s2
  dsimp only [draw]
  refine forRange_obs (fun g : Grid => getCell g x y) _ _ _ _ ?_
  intro dyi _ _ g
  refine forRange_obs (fun g : Grid => getCell g x y) _ _ _ _ ?_
  intro dxi _ _ g
  dsimp only
  split_ifs with h1 h2
  · obtain ⟨ha, hb, hc, hd⟩ := h1
    refine getCell_setCell_ne _ _ _ _ _ _ ?_
    omega
  · rfl
  · rfl

/-- `generateOpenFieldPlayArea` only writes inside the interior
rectangle. -/
theorem generateOpenFieldPlayArea_frame (rs : RandStream) (s : GenSt)
    (x y : Int) (hout : ¬(1 ≤ x ∧ x < 19 ∧ 1 ≤ y ∧ y < 23)) :
    getCell (generateOpenFieldPlayArea rs s).grid x y = getCell s.grid x y := by
  have eBS : BODY_START = 8 := rfl
  have eMH : MAP_HEIGHT = 24 := rfl
  have eMW : MAP_WIDTH = 20 := rfl
  unfold generateOpenFieldPlayArea
  dsimp only
  refine (createClearings_frame rs _ x y hout).trans ?_
  refine forRange_obs (fun s2 : GenSt => getCell s2.grid x y) _ _ _ _ ?_
  intro j hj1 hj2 s2
  refine forRange_obs (fun s3 : GenSt => getCell s3.grid x y) _ _ _ _ ?_
  intro i hi1 hi2 s3
  dsimp only [draw]
  refine getCell_setCell_ne _ _ _ _ _ _ ?_
  omega

/-- The nested body fill loop shared by several strategies only writes
inside the body rectangle. -/
theorem bodyFillLoop_frame (t : TerrainType) (x y : Int)
    (hout : ¬(1 ≤ x ∧ x < 19 ∧ 8 ≤ y ∧ y < 23)) (g : Grid) :
    getCell (forRange BODY_START (MAP_HEIGHT - 1) (fun y2 g =>
      forRange 1 (MAP_WIDTH - 1) (fun x2 g =>
        setCell g (x2 : Int) (y2 : Int) t) g) g) x y = getCell g x y := by
  have eBS : BODY_START = 8 := rfl
  have eMH : MAP_HEIGHT = 24 := rfl
  have eMW : MAP_WIDTH = 20 := rfl
  refine forRange_obs (fun g : Grid => getCell g x y) _ _ _ _ ?_
  intro j hj1 hj2 g
  refine forRange_obs (fun g : Grid => getCell g x y) _ _ _ _ ?_
  intro i hi1 hi2 g
  refine getCell_setCell_ne _ _ _ _ _ _ ?_
  omega

/-- The first maze wall lattice only writes at interior cells. -/
theorem mazeWalls1_frame (x y : Int)
    (hout : ¬(1 ≤ x ∧ x < 19 ∧ 1 ≤ y ∧ y < 23)) (g : Grid) :
    getCell (forRangeStep BODY_START 5 3 (fun y2 g =>
      forRangeStep 2 6 3 (fun x2 g =>
        if x2 < MAP_WIDTH - 1 ∧ y2 < MAP_HEIGHT - 1 then
          setCell g (x2 : Int) (y2 : Int) TerrainType.UNDIGGABLE
        else g) g) g) x y = getCell g x y := by
  have eBS : BODY_START = 8 := rfl
  have eMH : MAP_HEIGHT = 24 := rfl
  have eMW : MAP_WIDTH = 20 := rfl
  refine forRangeStep_obs (fun g : Grid => getCell g x y) _ _ _ _ _ ?_
  intro j hj g
  refine forRangeStep_obs (fun g : Grid => getCell g x y) _ _ _ _ _ ?_
  intro i hi g
  obtain ⟨k1, hk1, rfl⟩ := hj
  obtain ⟨k2, hk2, rfl⟩ := hi
  split_ifs with hg
  · refine getCell_setCell_ne _ _ _ _ _ _ ?_
    omega
  · rfl

/-- The second maze wall lattice only writes at interior cells. -/
theorem mazeWalls2_frame (x y : Int)
    (hout : ¬(1 ≤ x ∧ x < 19 ∧ 1 ≤ y ∧ y < 23)) (g : Grid) :
    getCell (forRangeStep 2 6 3 (fun x2 g =>
      forRangeStep BODY_START 5 3 (fun y2 g =>
        if x2 < MAP_WIDTH - 1 ∧ y2 < MAP_HEIGHT - 1 then
          setCell g (x2 : Int) (y2 : Int) TerrainType.UNDIGGABLE
        else g) g) g) x y = getCell g x y := by
  have eBS : BODY_START = 8 := rfl
  have eMH : MAP_HEIGHT = 24 := rfl
  have eMW : MAP_WIDTH = 20 := rfl
  refine forRangeStep_obs (fun g : Grid => getCell g x y) _ _ _ _ _ ?_
  intro i hi g
  refine forRangeStep_obs (fun g : Grid => getCell g x y) _ _ _ _ _ ?_
  intro j hj g
  obtain ⟨k1, hk1, rfl⟩ := hi
  obtain ⟨k2, hk2, rfl⟩ := hj
  split_ifs with hg
  · refine getCell_setCell_ne _ _ _ _ _ _ ?_
    omega
  · rfl

/-- `generateMazePlayArea` only writes inside the interior rectangle. -/
theorem generateMazePlayArea_frame (rs : RandStream)
    (hrs : ∀ n, 0 ≤ rs n ∧ rs n < 1) (s : GenSt) (x y : Int)
    (hout : ¬(1 ≤ x ∧ x < 19 ∧ 1 ≤ y ∧ y < 23)) :
    getCell (generateMazePlayArea rs s).grid x y = getCell s.grid x y := by
  have eBS : BODY_START = 8 := rfl
  have eMH : MAP_HEIGHT = 24 := rfl
  have eMW : MAP_WIDTH = 20 := rfl
  unfold generateMazePlayArea
  dsimp only
  refine Eq.trans (forRange_obs (fun s2 : GenSt => getCell s2.grid x y)
    _ _ _ _ ?_) ?_
  · -- the random openings stay inside the interior
    intro p _ _ s2
    dsimp only [draw]
    have hf1 := floor_bounds_q (rs s2.k) (hrs s2.k).1 (hrs s2.k).2
      ((MAP_WIDTH : ℚ) - 2) 18 (by norm_num [MAP_WIDTH])
      (by norm_num [MAP_WIDTH])
    have hf2 := floor_bounds_q (rs (s2.k + 1)) (hrs (s2.k + 1)).1
      (hrs (s2.k + 1)).2 ((MAP_HEIGHT : ℚ) - (BODY_START : ℚ) - 1) 15
      (by norm_num [MAP_HEIGHT, BODY_START])
      (by norm_num [MAP_HEIGHT, BODY_START])
    refine getCell_setCell_ne _ _ _ _ _ _ ?_
    omega
  · dsimp only
    rw [mazeWalls2_frame x y hout, mazeWalls1_frame x y hout,
      bodyFillLoop_frame TerrainType.DIGGABLE x y (by omega)]

/-- Each cavern center chosen by `buildCaverns` lies inside x in [4,15],
y in [10,21]. -/
theorem buildCaverns_bounds (rs : RandStream)
    (hrs : ∀ n, 0 ≤ rs n ∧ rs n < 1) (s : GenSt) :
    ∀ c ∈ (buildCaverns rs s).1,
      4 ≤ c.x ∧ c.x ≤ 15 ∧ 10 ≤ c.y ∧ c.y ≤ 21 := by
  have eBS : BODY_START = 8 := rfl
  unfold buildCaverns
  refine forRange_preserves
    (fun p : List Cavern × GenSt =>
      ∀ c ∈ p.1, 4 ≤ c.x ∧ c.x ≤ 15 ∧ 10 ≤ c.y ∧ c.y ≤ 21)
    0 4 _ _ ?_ ?_
  · intro i _ _ p hp c hc
    dsimp only [draw] at hc
    rcases List.mem_append.mp hc with h | h
    · exact hp c h
    · have hf1 := floor_bounds_q (rs p.2.k) (hrs p.2.k).1 (hrs p.2.k).2
        ((MAP_WIDTH : ℚ) - 8) 12 (by norm_num [MAP_WIDTH])
        (by norm_num [MAP_WIDTH])
      have hf2 := floor_bounds_q (rs (p.2.k + 1)) (hrs (p.2.k + 1)).1
        (hrs (p.2.k + 1)).2 ((MAP_HEIGHT : ℚ) - (BODY_START : ℚ) - 4) 12
        (by norm_num [MAP_HEIGHT, BODY_START])
        (by norm_num [MAP_HEIGHT, BODY_START])
      rw [List.mem_singleton.mp h]
      refine ⟨?_, ?_, ?_, ?_⟩ <;> dsimp only <;> omega
  · intro c hc
    cases hc

/-- `buildCaverns` draws random numbers but never touches the grid. -/
theorem buildCaverns_grid (rs : RandStream) (s : GenSt) :
    (buildCaverns rs s).2.grid = s.grid := by
  unfold buildCaverns
  refine forRange_obs (fun p : List Cavern × GenSt => p.2.grid) _ _ _ _ ?_
  intro i _ _ p
  dsimp only [draw]

/-- The horizontal tunnel loop writes only at interior cells and its final
column stays inside [4,15]. -/
theorem carveTunnelH_frame (yt tx xT yT : Int)
    (hout : ¬(1 ≤ xT ∧ xT < 19 ∧ 1 ≤ yT ∧ yT < 23))
    (hyt : 10 ≤ yt ∧ yt ≤ 21) (htx : 4 ≤ tx ∧ tx ≤ 15) :
    ∀ (fuel : Nat) (g : Grid) (xc : Int), 4 ≤ xc → xc ≤ 15 →
      getCell (carveTunnelH yt tx fuel g xc).1 xT yT = getCell g xT yT ∧
      4 ≤ (carveTunnelH yt tx fuel g xc).2 ∧
      (carveTunnelH yt tx fuel g xc).2 ≤ 15
  | 0, g, xc, h1, h2 => ⟨rfl, h1, h2⟩
  | fuel + 1, g, xc, h1, h2 => by
    rw [carveTunnelH]
    by_cases hxt : xc = tx
    · rw [if_pos hxt]
      exact ⟨rfl, h1, h2⟩
    · rw [if_neg hxt]
      have hrec := carveTunnelH_frame yt tx xT yT hout hyt htx fuel
        (setCell g xc yt TerrainType.DIGGABLE)
        (if xc < tx then xc + 1 else xc - 1)
        (by split_ifs <;> omega) (by split_ifs <;> omega)
      refine ⟨hrec.1.trans ?_, hrec.2.1, hrec.2.2⟩
      refine getCell_setCell_ne _ _ _ _ _ _ ?_
      omega

/-- The vertical tunnel loop writes only at interior cells. -/
theorem carveTunnelV_frame (xf ty xT yT : Int)
    (hout : ¬(1 ≤ xT ∧ xT < 19 ∧ 1 ≤ yT ∧ yT < 23))
    (hxf : 4 ≤ xf ∧ xf ≤ 15) (hty : 10 ≤ ty ∧ ty ≤ 21) :
    ∀ (fuel : Nat) (g : Grid) (yc : Int), 10 ≤ yc → yc ≤ 21 →
      getCell (carveTunnelV xf ty fuel g yc) xT yT = getCell g xT yT
  | 0, _, _, _, _ => rfl
  | fuel + 1, g, yc, h1, h2 => by
    rw [carveTunnelV]
    by_cases hyt2 : yc = ty
    · rw [if_pos hyt2]
    · rw [if_neg hyt2]
      have hrec := carveTunnelV_frame xf ty xT yT hout hxf hty fuel
        (setCell g xf yc TerrainType.DIGGABLE)
        (if yc < ty then yc + 1 else yc - 1)
        (by split_ifs <;> omega) (by split_ifs <;> omega)
      refine hrec.trans ?_
      refine getCell_setCell_ne _ _ _ _ _ _ ?_
      omega

/-- `connectCaverns` writes only at interior cells when every cavern center
is inside the body region. -/
theorem connectCaverns_frame (caverns : List Cavern) (g : Grid)
    (xT yT : Int) (hout : ¬(1 ≤ xT ∧ xT < 19 ∧ 1 ≤ yT ∧ yT < 23))
    (hcav : ∀ c ∈ caverns, 4 ≤ c.x ∧ c.x ≤ 15 ∧ 10 ≤ c.y ∧ c.y ≤ 21) :
    getCell (connectCaverns caverns g) xT yT = getCell g xT yT := by
  unfold connectCaverns
  refine forRange_obs (fun g : Grid => getCell g xT yT) _ _ _ _ ?_
  intro i _ _ g
  rcases h1 : caverns[i]? with _ | c1 <;>
    rcases h2 : caverns[i + 1]? with _ | c2
  · rfl
  · rfl
  · rfl
  · dsimp only
    have hc1 := hcav c1 (List.getElem?_mem h1)
    have hc2 := hcav c2 (List.getElem?_mem h2)
    have hH := carveTunnelH_frame c1.y c2.x xT yT hout
      ⟨hc1.2.2.1, hc1.2.2.2⟩ ⟨hc2.1, hc2.2.1⟩ (c2.x - c1.x).natAbs g c1.x
      hc1.1 hc1.2.1
    have hV := carveTunnelV_frame
      (carveTunnelH c1.y c2.x (c2.x - c1.x).natAbs g c1.x).2 c2.y xT yT
      hout ⟨hH.2.1, hH.2.2⟩ ⟨hc2.2.2.1, hc2.2.2.2⟩ (c2.y - c1.y).natAbs
      (carveTunnelH c1.y c2.x (c2.x - c1.x).natAbs g c1.x).1 c1.y
      hc1.2.2.1 hc1.2.2.2
    exact hV.trans hH.1

/-- `generateCavernPlayArea` only writes inside the interior rectangle. -/
theorem generateCavernPlayArea_frame (rs : RandStream)
    (hrs : ∀ n, 0 ≤ rs n ∧ rs n < 1) (s : GenSt) (x y : Int)
    (hout : ¬(1 ≤ x ∧ x < 19 ∧ 1 ≤ y ∧ y < 23)) :
    getCell (generateCavernPlayArea rs s).grid x y = getCell s.grid x y := by
  have eBS : BODY_START = 8 := rfl
  have eMH : MAP_HEIGHT = 24 := rfl
  have eMW : MAP_WIDTH = 20 := rfl
  unfold generateCavernPlayArea
  dsimp only
  refine Eq.trans (connectCaverns_frame _ _ x y hout
    (buildCaverns_bounds rs hrs _)) ?_
  refine Eq.trans (forRange_obs (fun g : Grid => getCell g x y) _ _ _ _ ?_) ?_
  · -- cavern chambers and rings
    intro j hj1 hj2 g
    refine forRange_obs (fun g : Grid => getCell g x y) _ _ _ _ ?_
    intro i hi1 hi2 g
    refine foldl_obs (fun g : Grid => getCell g x y) _ _ ?_ g
    intro c hc g
    dsimp only
    split_ifs with hd1 hd2
    · refine getCell_setCell_ne _ _ _ _ _ _ ?_
      omega
    · refine getCell_setCell_ne _ _ _ _ _ _ ?_
      omega
    · rfl
  · -- the UNDIGGABLE fill, through the grid-preserving cavern draws
    rw [buildCaverns_grid]
    dsimp only
    refine forRange_obs (fun g : Grid => getCell g x y) _ _ _ _ ?_
    intro j hj1 hj2 g
    refine forRange_obs (fun g : Grid => getCell g x y) _ _ _ _ ?_
    intro i hi1 hi2 g
    refine getCell_setCell_ne _ _ _ _ _ _ ?_
    omega

/-- C7: for every generation strategy and every outcome of the random
draws, every cell of the outer border ring of the generated grid is
UNDIGGABLE. -/
theorem generateMap_border (rs : RandStream)
    (hrs : ∀ n, 0 ≤ rs n ∧ rs n < 1) (mt : String)
    (hmt : mt = "bellJar" ∨ mt = "simpleBox" ∨ mt = "openField" ∨
           mt = "maze" ∨ mt = "cavern") :
    (∀ x : Nat, x < 20 →
      getCell (generateMap rs mt) (x : Int) 0 = some TerrainType.UNDIGGABLE ∧
      getCell (generateMap rs mt) (x : Int) 23 =
        some TerrainType.UNDIGGABLE) ∧
    (∀ y : Nat, y < 24 →
      getCell (generateMap rs mt) 0 (y : Int) = some TerrainType.UNDIGGABLE ∧
      getCell (generateMap rs mt) 19 (y : Int) =
        some TerrainType.UNDIGGABLE) := by
  have hkey : ∀ x y : Int, ¬(1 ≤ x ∧ x < 19 ∧ 1 ≤ y ∧ y < 23) →
      getCell (generateMap rs mt) x y = getCell baseG3 x y := by
    intro x y hout
    have hnot : ¬(1 ≤ x ∧ x < 19 ∧ 4 ≤ y ∧ y < 8) := by omega
    rcases hmt with rfl | rfl | rfl | rfl | rfl
    · have hd : generateMap rs "bellJar" =
          (generateBellJarPlayArea rs (createBaseMapStructure rs)).grid := rfl
      rw [hd, generateBellJarPlayArea_frame rs hrs _ x y hout,
        createBaseMapStructure_eq, generateNeck_frame _ _ _ _ hnot]
    · have hd : generateMap rs "simpleBox" =
          (generateSimpleBoxPlayArea (createBaseMapStructure rs)).grid := rfl
      rw [hd, generateSimpleBoxPlayArea_frame _ x y (by omega),
        createBaseMapStructure_eq, generateNeck_frame _ _ _ _ hnot]
    · have hd : generateMap rs "openField" =
          (generateOpenFieldPlayArea rs (createBaseMapStructure rs)).grid :=
        rfl
      rw [hd, generateOpenFieldPlayArea_frame rs _ x y hout,
        createBaseMapStructure_eq, generateNeck_frame _ _ _ _ hnot]
    · have hd : generateMap rs "maze" =
          (generateMazePlayArea rs (createBaseMapStructure rs)).grid := rfl
      rw [hd, generateMazePlayArea_frame rs hrs _ x y hout,
        createBaseMapStructure_eq, generateNeck_frame _ _ _ _ hnot]
    · have hd : generateMap rs "cavern" =
          (generateCavernPlayArea rs (createBaseMapStructure rs)).grid := rfl
      rw [hd, generateCavernPlayArea_frame rs hrs _ x y hout,
        createBaseMapStructure_eq, generateNeck_frame _ _ _ _ hnot]
  have hb1 : ∀ a : Nat, a < 20 →
      getCell baseG3 (a : Int) 0 = some TerrainType.UNDIGGABLE := by decide
  have hb2 : ∀ a : Nat, a < 20 →
      getCell baseG3 (a : Int) 23 = some TerrainType.UNDIGGABLE := by decide
  have hb3 : ∀ b : Nat, b < 24 →
      getCell baseG3 0 (b : Int) = some TerrainType.UNDIGGABLE := by decide
  have hb4 : ∀ b : Nat, b < 24 →
      getCell baseG3 19 (b : Int) = some TerrainType.UNDIGGABLE := by decide
  refine ⟨?_, ?_⟩
  · intro x hx
    exact ⟨by rw [hkey (x : Int) 0 (by omega)]; exact hb1 x hx,
      by rw [hkey (x : Int) 23 (by omega)]; exact hb2 x hx⟩
  · intro y hy
    exact ⟨by rw [hkey 0 (y : Int) (by omega)]; exact hb3 y hy,
      by rw [hkey 19 (y : Int) (by omega)]; exact hb4 y hy⟩

/-- Witness for C7 at a concrete strategy, stream and border cell. -/
theorem generateMap_border_witness :
    getCell (generateMap (fun _ => 0) "simpleBox") 0 0 =
      some TerrainType.UNDIGGABLE :=
  ((generateMap_border (fun _ => 0)
    (fun n => ⟨le_refl 0, by norm_num⟩) "simpleBox"
    (Or.inr (Or.inl rfl))).1 0 (by omega)).1

end MiningGame
